import Mathlib

/-!
Shallow embedding of `salt/states/tomcat.py`, the Salt state module that
reconciles Tomcat webapp deployments through the manager webapp.

The module's four entry points (`war_deployed`, `wait`, `mod_watch`,
`undeployed`) are embedded as pure functions.  The external manager
collaborator (`tomcat.ls`, `tomcat.status`, `tomcat.undeploy`,
`tomcat.deploy_war`, `tomcat.start`, `tomcat.reload`) is modelled by a
`Manager` record holding the replies it would give during one pass, and
each embedded operation additionally returns the ordered trace of manager
calls it issued.  A result of `none` (in `Option Ret`) models an uncaught
Python exception escaping the function.
-/

namespace Tomcat

/-- One entry of the observed deployment map returned by the manager
listing (`tomcat.ls`): a version string and a run mode. -/
structure Webapp where
  version : String
  mode : String
deriving DecidableEq

/-- The `version` argument of `war_deployed`: either a string (where `""`
is the "unset" sentinel) or a falsy non-string value such as `False`
(the "suppress" sentinel; `None`, `0`, … behave identically). -/
inductive VersionArg where
  | vstr (s : String)
  | vfalsy
deriving DecidableEq

/-- Python `s.endswith suffix`: character-sequence suffix test. -/
def pyEndsWith (s suffix : String) : Bool :=
  List.isSuffixOf suffix.data s.data

/-- Python `s.startswith p`: character-sequence prefix test. -/
def pyStartsWith (s p : String) : Bool :=
  List.isPrefixOf p.data s.data

/-- A value stored in a report's `changes` mapping: the module stores
strings everywhere except `mod_watch`, which stores a boolean. -/
inductive ChVal where
  | str (v : String)
  | bool (v : Bool)
deriving DecidableEq

/-- Python dict write `d[k] = v` on an insertion-ordered dict:
update in place when the key exists, append otherwise. -/
def dictSet (d : List (String × ChVal)) (k : String) (v : ChVal) :
    List (String × ChVal) :=
  if (d.lookup k).isSome then
    d.map (fun p => if p.1 = k then (k, v) else p)
  else d ++ [(k, v)]

/-- Python `d.pop k`: `none` models the `KeyError` raised on a missing
key. -/
def dictPop (d : List (String × ChVal)) (k : String) :
    Option (List (String × ChVal)) :=
  if (d.lookup k).isSome then some (d.filter (fun p => p.1 != k)) else none

/-- The kinds of manager calls an operation can issue. -/
inductive MCall where
  | lsQuery
  | statusQuery
  | undeployCmd
  | deployCmd
  | startCmd
  | reloadCmd
deriving DecidableEq

/-- Whether a manager call mutates server state (deploy, undeploy, start,
reload); the listing and status probes are read-only. -/
def MCall.isMutation : MCall → Bool
  | .undeployCmd => true
  | .deployCmd => true
  | .startCmd => true
  | .reloadCmd => true
  | .lsQuery => false
  | .statusQuery => false

/-- Replies of the manager collaborator for one reconciliation pass:
the observed deployment map, the status-probe outcome, the reply strings
of the mutation calls, and the deployment map a second listing (issued
after a successful deploy) would return. -/
structure Manager where
  webapps : List (String × Webapp)
  statusOk : Bool
  undeployReply : String
  deployReply : String
  startReply : String
  reloadReply : String
  webappsAfter : List (String × Webapp)
deriving DecidableEq

/-- The `ret` dictionary every operation returns: `result` is
`some true` / `some false` / `none` (Python `True` / `False` / `None`). -/
structure Ret where
  name : String
  result : Option Bool
  changes : List (String × ChVal)
  comment : String
deriving DecidableEq

/-- Lines 119–123 of `war_deployed`: if `version == ''` derive it from the
war filename (`_extract_war_version(war) or ""`, with `extracted` the
collaborator's result), else if `version` is falsy use `''`, else keep the
supplied value. -/
def resolveVersion : VersionArg → Option String → String
  | .vstr s, extracted => if s = "" then extracted.getD "" else s
  | .vfalsy, _ => ""

/-- The `'version ' + version if version else 'no version'` phrase used in
the change and comment messages. -/
def versionPhrase (v : String) : String :=
  if v ≠ "" then "version " ++ v else "no version"

/-- The flags and report fields produced by the "Determine what to do"
block (lines 128–160): `early` records the `return ret` on line 155. -/
structure Decision where
  deploy : Bool
  undeploy : Bool
  status : Bool
  changes : List (String × ChVal)
  comment : String
  early : Bool
deriving DecidableEq

/-- The "Determine what to do" block of `war_deployed`: the `try` body
branches on the redeploy condition, and any lookup failure (the `except`)
lands in the deploy-only branch. -/
def plan (name version : String) (force : Bool)
    (webapps : List (String × Webapp)) : Decision :=
  match webapps.lookup name with
  | none =>
    { deploy := true, undeploy := false, status := true,
      changes := [("deploy",
        ChVal.str ("deployed " ++ name ++ " with " ++ versionPhrase version))],
      comment := "", early := false }
  | some w =>
    if !(pyEndsWith w.version version) || w.version != version || force then
      { deploy := true, undeploy := true, status := true,
        changes := dictSet (dictSet [] "undeploy"
            (ChVal.str ("undeployed " ++ name ++ " with "
              ++ versionPhrase w.version)))
          "deploy"
          (ChVal.str ("will deploy " ++ name ++ " with "
            ++ versionPhrase version)),
        comment := "", early := false }
    else if w.mode != "running" then
      { deploy := false, undeploy := false, status := false,
        changes := [("start", ChVal.str ("starting " ++ name))],
        comment := name ++ " with " ++ versionPhrase version
          ++ " is already deployed",
        early := false }
    else
      { deploy := false, undeploy := false, status := true,
        changes := [],
        comment := name ++ " with " ++ versionPhrase version
          ++ " is already deployed",
        early := true }

/-- Python `str()` of one observed record, used for the comment after a
successful deploy (`str(__salt__['tomcat.ls'](url, timeout)[name])`). -/
def webappStr (w : Webapp) : String :=
  "\x7b'version': '" ++ w.version ++ "', 'mode': '" ++ w.mode ++ "'\x7d"

/-- `war_deployed(name, war, force, url, timeout, temp_war_location,
version)`: `test` is `__opts__['test']`, `extracted` the result of the
external `_extract_war_version(war)` collaborator.  Returns the report
(`none` for an uncaught exception) and the ordered manager-call trace. -/
def war_deployed (name war : String) (force : Bool) (versionArg : VersionArg)
    (extracted : Option String) (test : Bool) (mgr : Manager) :
    Option Ret × List MCall :=
  let version := resolveVersion versionArg extracted
  let d := plan name version force mgr.webapps
  let ret0 : Ret :=
    { name := name, result := some true, changes := d.changes,
      comment := d.comment }
  if d.early then (some ret0, [MCall.lsQuery])
  else if test then (some { ret0 with result := none }, [MCall.lsQuery])
  else if d.deploy = false then
    if d.status = false then
      (some { ret0 with
                comment := mgr.startReply,
                result := some (pyStartsWith mgr.startReply "OK") },
        [MCall.lsQuery, MCall.startCmd])
    else (some ret0, [MCall.lsQuery])
  else if d.undeploy && pyStartsWith mgr.undeployReply "FAIL" then
    (some { ret0 with result := some false, comment := mgr.undeployReply },
      [MCall.lsQuery, MCall.undeployCmd])
  else
    let calls := [MCall.lsQuery]
      ++ (if d.undeploy then [MCall.undeployCmd] else []) ++ [MCall.deployCmd]
    if pyStartsWith mgr.deployReply "OK" then
      match mgr.webappsAfter.lookup name with
      | some w =>
        (some { ret0 with
                  result := some true,
                  comment := webappStr w,
                  changes := dictSet ret0.changes "deploy"
                    (ChVal.str ("deployed " ++ name ++ " in version "
                      ++ version)) },
          calls ++ [MCall.lsQuery])
      | none => (none, calls ++ [MCall.lsQuery])
    else
      match dictPop ret0.changes "deploy" with
      | some c =>
        (some { ret0 with
                  result := some false,
                  comment := mgr.deployReply,
                  changes := c },
          calls)
      | none => (none, calls)

/-- `wait(name, url, timeout)`: one status probe, result mirrors it. -/
def wait (name : String) (mgr : Manager) : Ret × List MCall :=
  ({ name := name, result := some mgr.statusOk, changes := [],
     comment := if mgr.statusOk then "tomcat manager is ready"
                else "tomcat manager is not ready" },
    [MCall.statusQuery])

/-- `mod_watch(name, url, timeout)`: reload unconditionally; the dry-run
flag `test` is ambient in `__opts__` but never consulted here. -/
def mod_watch (name : String) (test : Bool) (mgr : Manager) :
    Ret × List MCall :=
  ({ name := name, result := some (pyStartsWith mgr.reloadReply "OK"),
     changes := [(name, ChVal.bool (pyStartsWith mgr.reloadReply "OK"))],
     comment := mgr.reloadReply },
    [MCall.reloadCmd])

/-- `undeployed(name, url, timeout)`: probe, list, dry-run gate, undeploy.
The `except KeyError: return ret` catches the lookup of a missing context
path. -/
def undeployed (name : String) (test : Bool) (mgr : Manager) :
    Ret × List MCall :=
  let ret0 : Ret :=
    { name := name, result := some true, changes := [], comment := "" }
  if !mgr.statusOk then
    ({ ret0 with
         comment := "Tomcat Manager does not response",
         result := some false },
      [MCall.statusQuery])
  else
    match mgr.webapps.lookup name with
    | none => (ret0, [MCall.statusQuery, MCall.lsQuery])
    | some w =>
      let ret1 :=
        { ret0 with changes := [("undeploy", ChVal.str w.version)] }
      if test then
        ({ ret1 with result := none }, [MCall.statusQuery, MCall.lsQuery])
      else if pyStartsWith mgr.undeployReply "FAIL" then
        ({ ret1 with result := some false, comment := mgr.undeployReply },
          [MCall.statusQuery, MCall.lsQuery, MCall.undeployCmd])
      else
        (ret1, [MCall.statusQuery, MCall.lsQuery, MCall.undeployCmd])

/-- A concrete manager snapshot used to evaluate the operations on sample
inputs: `/app` deployed at version `1.0` and running, all replies
successful. -/
def mgrRunning : Manager :=
  { webapps := [("/app", { version := "1.0", mode := "running" })],
    statusOk := true,
    undeployReply := "OK - Undeployed application at context path /app",
    deployReply := "OK - Deployed application at context path /app",
    startReply := "OK - Started application at context path /app",
    reloadReply := "OK - Reloaded application at context path /app",
    webappsAfter := [("/app", { version := "2.0", mode := "running" })] }

/-! ### Helper lemmas -/

theorem lookup_filter_ne (d : List (String × ChVal)) (k : String) :
    (d.filter (fun p => p.1 != k)).lookup k = none := by
  induction d with
  | nil => rfl
  | cons p t ih =>
      rw [List.filter_cons]
      by_cases hp : p.1 = k
      · rw [if_neg (by simp [hp])]
        exact ih
      · rw [if_pos (by simp [hp]), List.lookup_cons,
          beq_false_of_ne (fun hkk => hp hkk.symm)]
        exact ih

theorem dictSet_undeploy_deploy (x y : ChVal) :
    dictSet (dictSet [] "undeploy" x) "deploy" y
      = [("undeploy", x), ("deploy", y)] := by
  simp [dictSet, List.lookup]

theorem plan_absent (name v : String) (force : Bool)
    (webapps : List (String × Webapp)) (h : webapps.lookup name = none) :
    plan name v force webapps =
      { deploy := true, undeploy := false, status := true,
        changes := [("deploy",
          ChVal.str ("deployed " ++ name ++ " with " ++ versionPhrase v))],
        comment := "", early := false } := by
  simp [plan, h]

theorem plan_present_mismatch (name v : String) (force : Bool) (w : Webapp)
    (webapps : List (String × Webapp)) (h : webapps.lookup name = some w)
    (hc : (!(pyEndsWith w.version v) || w.version != v || force) = true) :
    plan name v force webapps =
      { deploy := true, undeploy := true, status := true,
        changes := [("undeploy",
            ChVal.str ("undeployed " ++ name ++ " with "
              ++ versionPhrase w.version)),
          ("deploy",
            ChVal.str ("will deploy " ++ name ++ " with "
              ++ versionPhrase v))],
        comment := "", early := false } := by
  simp [plan, h, hc, dictSet_undeploy_deploy]

theorem plan_present_match_stopped (name v : String) (w : Webapp)
    (webapps : List (String × Webapp)) (h : webapps.lookup name = some w)
    (hends : pyEndsWith w.version v = true) (heq : w.version = v)
    (hmode : ¬ w.mode = "running") :
    plan name v false webapps =
      { deploy := false, undeploy := false, status := false,
        changes := [("start", ChVal.str ("starting " ++ name))],
        comment := name ++ " with " ++ versionPhrase v
          ++ " is already deployed",
        early := false } := by
  have hends' : pyEndsWith v v = true := heq ▸ hends
  simp [plan, h, heq, hends', hmode]

theorem plan_present_match_running (name v : String) (w : Webapp)
    (webapps : List (String × Webapp)) (h : webapps.lookup name = some w)
    (hends : pyEndsWith w.version v = true) (heq : w.version = v)
    (hmode : w.mode = "running") :
    plan name v false webapps =
      { deploy := false, undeploy := false, status := true,
        changes := [],
        comment := name ++ " with " ++ versionPhrase v
          ++ " is already deployed",
        early := true } := by
  have hends' : pyEndsWith v v = true := heq ▸ hends
  simp [plan, h, heq, hends', hmode]

theorem plan_early_changes (name v : String) (force : Bool)
    (webapps : List (String × Webapp)) :
    (plan name v force webapps).early = true →
    (plan name v force webapps).changes = [] := by
  unfold plan
  cases hl : webapps.lookup name with
  | none => simp
  | some w =>
      intro h
      dsimp only at h ⊢
      by_cases hc : (!pyEndsWith w.version v || w.version != v || force) = true
      · rw [if_pos hc] at h
        simp at h
      · rw [if_neg hc] at h ⊢
        by_cases hm : (w.mode != "running") = true
        · rw [if_pos hm] at h
          simp at h
        · rw [if_neg hm] at h ⊢

/-- Under the dry-run flag, `war_deployed` always returns after the plan
step: the trace is the single listing, and the result is `None` unless
the already-deployed-and-running early return fired first. -/
theorem war_deployed_test_eq (name war : String) (force : Bool)
    (va : VersionArg) (ex : Option String) (mgr : Manager) :
    war_deployed name war force va ex true mgr =
      (some { name := name,
              result :=
                if (plan name (resolveVersion va ex) force
                    mgr.webapps).early then some true else none,
              changes := (plan name (resolveVersion va ex) force
                mgr.webapps).changes,
              comment := (plan name (resolveVersion va ex) force
                mgr.webapps).comment },
        [MCall.lsQuery]) := by
  cases hE : (plan name (resolveVersion va ex) force mgr.webapps).early <;>
    simp [war_deployed, hE]

theorem redeploy_cond_iff (a f : Bool) (b c : String) :
    (!a || b != c || f) = true ↔ (a = false ∨ b ≠ c ∨ f = true) := by
  simp [Bool.or_eq_true, Bool.not_eq_true', bne_iff_ne, or_assoc]

theorem redeploy_cond_false (a f : Bool) (b c : String)
    (h : ¬ (!a || b != c || f) = true) :
    a = true ∧ b = c ∧ f = false := by
  rw [redeploy_cond_iff] at h
  push_neg at h
  obtain ⟨h1, h2, h3⟩ := h
  exact ⟨by simpa using h1, h2, by simpa using h3⟩

theorem dictSet_ud_update (x y z : ChVal) :
    dictSet [("undeploy", x), ("deploy", y)] "deploy" z
      = [("undeploy", x), ("deploy", z)] := by
  simp [dictSet, List.lookup]

theorem dictSet_deploy_update (y z : ChVal) :
    dictSet [("deploy", y)] "deploy" z = [("deploy", z)] := by
  simp [dictSet, List.lookup]

theorem dictPop_after_undeploy (x y : ChVal) :
    dictPop [("undeploy", x), ("deploy", y)] "deploy"
      = some [("undeploy", x)] := by
  simp [dictPop, List.lookup]

theorem dictPop_deploy_only (y : ChVal) :
    dictPop [("deploy", y)] "deploy" = some [] := by
  simp [dictPop, List.lookup]

/-- Executing `war_deployed` (not dry-run) when the context path is
absent: deploy without undeploy; on a reply not starting `OK` the
planning-time deploy entry is popped back out. -/
theorem war_deployed_absent_eq (name war v : String) (force : Bool)
    (va : VersionArg) (ex : Option String) (mgr : Manager)
    (hv : resolveVersion va ex = v)
    (h : mgr.webapps.lookup name = none) :
    war_deployed name war force va ex false mgr =
      (if pyStartsWith mgr.deployReply "OK" then
        match mgr.webappsAfter.lookup name with
        | some w2 =>
          (some { name := name, result := some true,
                  changes := [("deploy",
                    ChVal.str ("deployed " ++ name ++ " in version " ++ v))],
                  comment := webappStr w2 },
            [MCall.lsQuery, MCall.deployCmd, MCall.lsQuery])
        | none => (none, [MCall.lsQuery, MCall.deployCmd, MCall.lsQuery])
      else
        (some { name := name, result := some false, changes := [],
                comment := mgr.deployReply },
          [MCall.lsQuery, MCall.deployCmd])) := by
  simp only [war_deployed, hv, plan_absent name v force mgr.webapps h]
  by_cases ho : pyStartsWith mgr.deployReply "OK" = true
  · simp only [ho]
    cases hla : mgr.webappsAfter.lookup name <;>
      simp [dictSet_deploy_update]
  · simp [ho, dictPop_deploy_only]

/-- Executing `war_deployed` (not dry-run) when the context path is
present and the redeploy condition holds: undeploy first; a `FAIL` reply
aborts before the deploy; a deploy reply not starting `OK` pops the
planning-time deploy entry. -/
theorem war_deployed_mismatch_eq (name war v : String) (force : Bool)
    (va : VersionArg) (ex : Option String) (mgr : Manager) (w : Webapp)
    (hv : resolveVersion va ex = v)
    (h : mgr.webapps.lookup name = some w)
    (hc : (!(pyEndsWith w.version v) || w.version != v || force) = true) :
    war_deployed name war force va ex false mgr =
      (if pyStartsWith mgr.undeployReply "FAIL" then
        (some { name := name, result := some false,
                changes := [("undeploy",
                    ChVal.str ("undeployed " ++ name ++ " with "
                      ++ versionPhrase w.version)),
                  ("deploy",
                    ChVal.str ("will deploy " ++ name ++ " with "
                      ++ versionPhrase v))],
                comment := mgr.undeployReply },
          [MCall.lsQuery, MCall.undeployCmd])
      else if pyStartsWith mgr.deployReply "OK" then
        match mgr.webappsAfter.lookup name with
        | some w2 =>
          (some { name := name, result := some true,
                  changes := [("undeploy",
                      ChVal.str ("undeployed " ++ name ++ " with "
                        ++ versionPhrase w.version)),
                    ("deploy",
                      ChVal.str ("deployed " ++ name ++ " in version "
                        ++ v))],
                  comment := webappStr w2 },
            [MCall.lsQuery, MCall.undeployCmd, MCall.deployCmd,
              MCall.lsQuery])
        | none =>
          (none, [MCall.lsQuery, MCall.undeployCmd, MCall.deployCmd,
            MCall.lsQuery])
      else
        (some { name := name, result := some false,
                changes := [("undeploy",
                  ChVal.str ("undeployed " ++ name ++ " with "
                    ++ versionPhrase w.version))],
                comment := mgr.deployReply },
          [MCall.lsQuery, MCall.undeployCmd, MCall.deployCmd])) := by
  simp only [war_deployed, hv,
    plan_present_mismatch name v force w mgr.webapps h hc]
  by_cases hf : pyStartsWith mgr.undeployReply "FAIL" = true
  · simp [hf]
  · simp only [hf]
    by_cases ho : pyStartsWith mgr.deployReply "OK" = true
    · simp only [ho]
      cases hla : mgr.webappsAfter.lookup name <;>
        simp [dictSet_ud_update]
    · simp [ho, dictPop_after_undeploy]

/-- `war_deployed` when the context path is present with matching version,
no force, and the app is running: the early return fires (before the
dry-run gate) with only the listing issued. -/
theorem war_deployed_running_eq (name war v : String) (va : VersionArg)
    (ex : Option String) (mgr : Manager) (w : Webapp) (test : Bool)
    (hv : resolveVersion va ex = v)
    (h : mgr.webapps.lookup name = some w)
    (hends : pyEndsWith w.version v = true) (heq : w.version = v)
    (hmode : w.mode = "running") :
    war_deployed name war false va ex test mgr =
      (some { name := name, result := some true, changes := [],
              comment := name ++ " with " ++ versionPhrase v
                ++ " is already deployed" },
        [MCall.lsQuery]) := by
  simp [war_deployed, hv,
    plan_present_match_running name v w mgr.webapps h hends heq hmode]

/-- `war_deployed` (not dry-run) when the context path is present with
matching version, no force, and the app is not running: only a start is
issued; the comment becomes the start reply and the result mirrors its
`OK` prefix. -/
theorem war_deployed_stopped_eq (name war v : String) (va : VersionArg)
    (ex : Option String) (mgr : Manager) (w : Webapp)
    (hv : resolveVersion va ex = v)
    (h : mgr.webapps.lookup name = some w)
    (hends : pyEndsWith w.version v = true) (heq : w.version = v)
    (hmode : ¬ w.mode = "running") :
    war_deployed name war false va ex false mgr =
      (some { name := name,
              result := some (pyStartsWith mgr.startReply "OK"),
              changes := [("start", ChVal.str ("starting " ++ name))],
              comment := mgr.startReply },
        [MCall.lsQuery, MCall.startCmd]) := by
  simp [war_deployed, hv,
    plan_present_match_stopped name v w mgr.webapps h hends heq hmode]

end Tomcat

open Tomcat

/-! ### Claim theorems -/

/-- C1 fails as stated: with `force = true` but the desired context path
absent from the observed map, the `except` branch plans a deploy only —
the plan has no `Undeploy` and `war_deployed` issues no undeploy call. -/
theorem C1_force_plan_counterexample :
    (plan "/app" "1.0" true []).undeploy = false
      ∧ (plan "/app" "1.0" true []).deploy = true
      ∧ MCall.undeployCmd ∉
          (war_deployed "/app" "app.war" true (VersionArg.vstr "1.0") none
            false { mgrRunning with webapps := [] }).2 := by
  decide

/-- C1 amended: with `force = true`, whenever the desired context path is
present in the observed map the plan contains both `Undeploy` and `Deploy`
regardless of version equality (and of the observed mode); when the
context path is absent the plan is deploy-only: `Deploy` without
`Undeploy`. -/
theorem C1_force_plan_amended (name v : String) (w : Webapp)
    (webapps : List (String × Webapp)) :
    (webapps.lookup name = some w →
        (plan name v true webapps).undeploy = true
          ∧ (plan name v true webapps).deploy = true)
      ∧ (webapps.lookup name = none →
          (plan name v true webapps).undeploy = false
            ∧ (plan name v true webapps).deploy = true) := by
  constructor
  · intro h
    rw [plan_present_mismatch name v true w webapps h (by simp)]
    exact ⟨rfl, rfl⟩
  · intro h
    rw [plan_absent name v true webapps h]
    exact ⟨rfl, rfl⟩

/-- Witness for C1 amended: `/app` present at version `1.0`, desired
version also `1.0` (equal versions; force alone triggers the redeploy). -/
theorem C1_force_plan_witness :
    (plan "/app" "1.0" true mgrRunning.webapps).undeploy = true
      ∧ (plan "/app" "1.0" true mgrRunning.webapps).deploy = true :=
  (C1_force_plan_amended "/app" "1.0" { version := "1.0", mode := "running" }
    mgrRunning.webapps).1 (by decide)

/-- C2 fails as stated: with the dry-run flag active, `mod_watch` still
issues the reload mutation, and its report's result is not `None`. -/
theorem C2_dry_run_counterexample :
    MCall.reloadCmd ∈ (mod_watch "/app" true mgrRunning).2
      ∧ MCall.reloadCmd.isMutation = true
      ∧ (mod_watch "/app" true mgrRunning).1.result ≠ none := by
  decide

/-- C2 amended: with the dry-run flag active, `war_deployed` issues only
the state listing (so no mutation call) and `undeployed` issues no
mutation call; for both, any report that records a change has result
`None` (`war_deployed` returns `True` on its already-deployed-and-running
early return and `undeployed` returns `True`/`False` on its early
returns, but those record no changes); `mod_watch` ignores the flag. -/
theorem C2_dry_run_amended (name war : String) (force : Bool)
    (va : VersionArg) (ex : Option String) (mgr : Manager) :
    ((war_deployed name war force va ex true mgr).2 = [MCall.lsQuery]
      ∧ (∀ r, (war_deployed name war force va ex true mgr).1 = some r →
          r.changes ≠ [] → r.result = none))
      ∧ ((∀ c ∈ (undeployed name true mgr).2, c.isMutation = false)
        ∧ ((undeployed name true mgr).1.changes ≠ [] →
            (undeployed name true mgr).1.result = none)) := by
  refine ⟨⟨?_, ?_⟩, ?_, ?_⟩
  · rw [war_deployed_test_eq]
  · intro r hr hch
    rw [war_deployed_test_eq] at hr
    dsimp only at hr
    simp only [Option.some.injEq] at hr
    cases hE : (plan name (resolveVersion va ex) force mgr.webapps).early
    · rw [hE] at hr
      rw [← hr]
      simp
    · have hc0 :=
        plan_early_changes name (resolveVersion va ex) force mgr.webapps hE
      rw [← hr] at hch
      simp only [hc0] at hch
      exact absurd rfl hch
  · intro c hc
    simp only [undeployed] at hc
    cases hst : mgr.statusOk
    · simp [hst] at hc
      subst hc
      rfl
    · cases hl : mgr.webapps.lookup name
      · simp [hst, hl] at hc
        rcases hc with h1 | h1 <;> (subst h1; rfl)
      · simp [hst, hl] at hc
        rcases hc with h1 | h1 <;> (subst h1; rfl)
  · intro hch
    simp only [undeployed] at hch ⊢
    cases hst : mgr.statusOk
    · simp [hst] at hch
    · cases hl : mgr.webapps.lookup name
      · simp [hst, hl] at hch
      · simp [hst, hl]

/-- Witness for C2 amended, on the concrete running snapshot with a
differing desired version: the dry-run trace is the single listing, and
the present-path `undeployed` dry-run report has result `None`. -/
theorem C2_dry_run_witness :
    (war_deployed "/app" "app.war" false (VersionArg.vstr "2.0") none true
        mgrRunning).2 = [MCall.lsQuery]
      ∧ (undeployed "/app" true mgrRunning).1.result = none :=
  ⟨(C2_dry_run_amended "/app" "app.war" false (VersionArg.vstr "2.0") none
      mgrRunning).1.1,
    (C2_dry_run_amended "/app" "app.war" false (VersionArg.vstr "2.0") none
      mgrRunning).2.2 (by decide)⟩

/-- C4: version resolution in `war_deployed`: the unset sentinel `''`
falls back to the filename-derived version (or `''` when extraction
yields nothing), the suppress sentinel (`False` or any other falsy
non-`''` value) yields `''` unconditionally without consulting the
filename, and any other supplied string is used verbatim, taking
precedence over the filename-derived version. -/
theorem C4_version_resolution (s : String) (ex : Option String) :
    resolveVersion (VersionArg.vstr "") ex = ex.getD ""
      ∧ resolveVersion VersionArg.vfalsy ex = ""
      ∧ (s ≠ "" → resolveVersion (VersionArg.vstr s) ex = s) := by
  refine ⟨rfl, rfl, fun hs => ?_⟩
  simp [resolveVersion, hs]

/-- Witness for C4 at `s = "9.9"`, `ex = some "1.0"`. -/
theorem C4_version_resolution_witness :
    resolveVersion (VersionArg.vstr "") (some "1.0") = (some "1.0").getD ""
      ∧ resolveVersion VersionArg.vfalsy (some "1.0") = ""
      ∧ ("9.9" ≠ "" → resolveVersion (VersionArg.vstr "9.9") (some "1.0")
          = "9.9") :=
  C4_version_resolution "9.9" (some "1.0")

/-- C7: when the readiness probe succeeds and the context path is absent
from the observed map, `undeployed` returns success with an empty changes
map and issues no manager undeploy call (the trace holds only the probe
and the listing). -/
theorem C7_absent_undeploy_success (name : String) (test : Bool)
    (mgr : Manager) (hst : mgr.statusOk = true)
    (habs : mgr.webapps.lookup name = none) :
    undeployed name test mgr =
      ({ name := name, result := some true, changes := [], comment := "" },
        [MCall.statusQuery, MCall.lsQuery]) := by
  simp [undeployed, hst, habs]

/-- Witness for C7: probe succeeds, `"/gone"` absent from the listing. -/
theorem C7_absent_undeploy_success_witness :
    undeployed "/gone" false
      { webapps := [("/app", { version := "1.0", mode := "running" })],
        statusOk := true, undeployReply := "OK", deployReply := "OK",
        startReply := "OK", reloadReply := "OK", webappsAfter := [] } =
      ({ name := "/gone", result := some true, changes := [],
          comment := "" },
        [MCall.statusQuery, MCall.lsQuery]) :=
  C7_absent_undeploy_success "/gone" false _ (by decide) (by decide)

/-- C9: `wait` issues exactly one status probe, returns that probe's
boolean outcome as the result with empty changes, and the comment states
readiness accordingly ("tomcat manager is ready" / "tomcat manager is not
ready"). -/
theorem C9_wait_probe (name : String) (mgr : Manager) :
    (wait name mgr).2 = [MCall.statusQuery]
      ∧ (wait name mgr).1.result = some mgr.statusOk
      ∧ (wait name mgr).1.changes = []
      ∧ (wait name mgr).1.comment =
          (if mgr.statusOk then "tomcat manager is ready"
           else "tomcat manager is not ready") :=
  ⟨rfl, rfl, rfl, rfl⟩

/-- C3: for a present context path, the plan contains the redeploy pair
(`Undeploy` then `Deploy`) exactly when the observed version fails the
ends-with check or the string-equality check against the desired version,
or force is true; and in any non-dry-run execution of such a plan the
undeploy call is issued directly after the listing, any deploy call
coming only after it. -/
theorem C3_redeploy_iff (name v : String) (force : Bool) (w : Webapp)
    (webapps : List (String × Webapp)) (h : webapps.lookup name = some w) :
    (((plan name v force webapps).undeploy = true
        ∧ (plan name v force webapps).deploy = true)
      ↔ (pyEndsWith w.version v = false ∨ w.version ≠ v ∨ force = true))
      ∧ (∀ (war : String) (va : VersionArg) (ex : Option String)
          (mgr : Manager),
          resolveVersion va ex = v → mgr.webapps = webapps →
          (pyEndsWith w.version v = false ∨ w.version ≠ v ∨ force = true) →
          ((war_deployed name war force va ex false mgr).2
              = [MCall.lsQuery, MCall.undeployCmd]
            ∨ (war_deployed name war force va ex false mgr).2
              = [MCall.lsQuery, MCall.undeployCmd, MCall.deployCmd]
            ∨ (war_deployed name war force va ex false mgr).2
              = [MCall.lsQuery, MCall.undeployCmd, MCall.deployCmd,
                  MCall.lsQuery])) := by
  constructor
  · constructor
    · intro hud
      by_cases hc :
        (!(pyEndsWith w.version v) || w.version != v || force) = true
      · exact (redeploy_cond_iff _ _ _ _).1 hc
      · exfalso
        obtain ⟨ha, he, hf⟩ := redeploy_cond_false _ _ _ _ hc
        subst hf
        by_cases hm : w.mode = "running"
        · rw [plan_present_match_running name v w webapps h ha he hm] at hud
          exact absurd hud.2 (by simp)
        · rw [plan_present_match_stopped name v w webapps h ha he hm] at hud
          exact absurd hud.2 (by simp)
    · intro hcond
      rw [plan_present_mismatch name v force w webapps h
        ((redeploy_cond_iff _ _ _ _).2 hcond)]
      exact ⟨rfl, rfl⟩
  · intro war va ex mgr hv hmw hcond
    rw [war_deployed_mismatch_eq name war v force va ex mgr w hv
      (by rw [hmw]; exact h) ((redeploy_cond_iff _ _ _ _).2 hcond)]
    by_cases hf : pyStartsWith mgr.undeployReply "FAIL" = true
    · rw [if_pos hf]
      left
      rfl
    · rw [if_neg hf]
      by_cases ho : pyStartsWith mgr.deployReply "OK" = true
      · rw [if_pos ho]
        cases hla : mgr.webappsAfter.lookup name
        · right; right; rfl
        · right; right; rfl
      · rw [if_neg ho]
        right; left
        rfl

/-- Witness for C3: `/app` at observed version `1.0`, desired `2.0`,
force off — the plan contains the redeploy pair. -/
theorem C3_redeploy_iff_witness :
    (plan "/app" "2.0" false mgrRunning.webapps).undeploy = true
      ∧ (plan "/app" "2.0" false mgrRunning.webapps).deploy = true :=
  (C3_redeploy_iff "/app" "2.0" false { version := "1.0", mode := "running" }
    mgrRunning.webapps (by decide)).1.2 (by decide)

/-- C5: when the plan contains both `Undeploy` and `Deploy` (present path
failing the version checks or forced) and the manager's undeploy reply
starts with `FAIL`, `war_deployed` returns immediately with result
`False` and the raw reply as comment, and the deploy call is never issued
(the trace ends at the undeploy). -/
theorem C5_undeploy_failure_aborts (name war v : String) (force : Bool)
    (va : VersionArg) (ex : Option String) (mgr : Manager) (w : Webapp)
    (hv : resolveVersion va ex = v)
    (h : mgr.webapps.lookup name = some w)
    (hcond : pyEndsWith w.version v = false ∨ w.version ≠ v ∨ force = true)
    (hfail : pyStartsWith mgr.undeployReply "FAIL" = true) :
    war_deployed name war force va ex false mgr =
      (some { name := name, result := some false,
              changes := [("undeploy",
                  ChVal.str ("undeployed " ++ name ++ " with "
                    ++ versionPhrase w.version)),
                ("deploy",
                  ChVal.str ("will deploy " ++ name ++ " with "
                    ++ versionPhrase v))],
              comment := mgr.undeployReply },
        [MCall.lsQuery, MCall.undeployCmd]) := by
  rw [war_deployed_mismatch_eq name war v force va ex mgr w hv h
    ((redeploy_cond_iff _ _ _ _).2 hcond), if_pos hfail]

/-- Witness for C5: present at `1.0`, desired `2.0`, undeploy fails. -/
theorem C5_undeploy_failure_aborts_witness :
    war_deployed "/app" "app.war" false (VersionArg.vstr "2.0") none false
        { mgrRunning with undeployReply := "FAIL - Unable to undeploy" } =
      (some { name := "/app", result := some false,
              changes := [("undeploy",
                  ChVal.str ("undeployed /app with "
                    ++ versionPhrase "1.0")),
                ("deploy",
                  ChVal.str ("will deploy /app with "
                    ++ versionPhrase "2.0"))],
              comment := "FAIL - Unable to undeploy" },
        [MCall.lsQuery, MCall.undeployCmd]) :=
  C5_undeploy_failure_aborts "/app" "app.war" "2.0" false
    (VersionArg.vstr "2.0") none
    { mgrRunning with undeployReply := "FAIL - Unable to undeploy" }
    { version := "1.0", mode := "running" }
    (by decide) (by decide) (by decide) (by decide)

/-- C6: in any non-dry-run execution in which the deploy call is issued
and the manager's deploy reply does not start with `OK`, the report has
result `False`, the raw reply as comment, and no `deploy` entry left in
the changes map. -/
theorem C6_deploy_failure_report (name war : String) (force : Bool)
    (va : VersionArg) (ex : Option String) (mgr : Manager)
    (hfail : pyStartsWith mgr.deployReply "OK" = false)
    (hdep : MCall.deployCmd ∈
      (war_deployed name war force va ex false mgr).2) :
    ∃ r, (war_deployed name war force va ex false mgr).1 = some r
      ∧ r.result = some false ∧ r.comment = mgr.deployReply
      ∧ r.changes.lookup "deploy" = none := by
  cases hl : mgr.webapps.lookup name with
  | none =>
      rw [war_deployed_absent_eq name war (resolveVersion va ex) force va ex
        mgr rfl hl, if_neg (by simp [hfail])]
      exact ⟨_, rfl, rfl, rfl, rfl⟩
  | some w =>
      by_cases hc : (!(pyEndsWith w.version (resolveVersion va ex))
          || w.version != resolveVersion va ex || force) = true
      · rw [war_deployed_mismatch_eq name war (resolveVersion va ex) force
          va ex mgr w rfl hl hc] at hdep ⊢
        by_cases hf : pyStartsWith mgr.undeployReply "FAIL" = true
        · rw [if_pos hf] at hdep
          simp at hdep
        · rw [if_neg hf] at hdep ⊢
          rw [if_neg (by simp [hfail])] at hdep ⊢
          refine ⟨_, rfl, rfl, rfl, ?_⟩
          simp [List.lookup]
      · obtain ⟨ha, he, hforce⟩ := redeploy_cond_false _ _ _ _ hc
        subst hforce
        by_cases hm : w.mode = "running"
        · rw [war_deployed_running_eq name war (resolveVersion va ex) va ex
            mgr w false rfl hl ha he hm] at hdep
          simp at hdep
        · rw [war_deployed_stopped_eq name war (resolveVersion va ex) va ex
            mgr w rfl hl ha he hm] at hdep
          simp at hdep

/-- Witness for C6 (Scenario D): the deploy reply is `"FAIL: disk full"`
on a present-path redeploy. -/
theorem C6_deploy_failure_report_witness :
    ∃ r, (war_deployed "/app" "app.war" false (VersionArg.vstr "2.0") none
        false { mgrRunning with deployReply := "FAIL: disk full" }).1
          = some r
      ∧ r.result = some false ∧ r.comment = "FAIL: disk full"
      ∧ r.changes.lookup "deploy" = none :=
  C6_deploy_failure_report "/app" "app.war" false (VersionArg.vstr "2.0")
    none { mgrRunning with deployReply := "FAIL: disk full" }
    (by decide) (by decide)

/-- C8: present context path passing both version checks with force off:
if the record runs, `war_deployed` issues no mutation call (the trace is
the single listing) and returns the already-deployed comment with empty
changes; if it does not run, a `start` change entry is recorded, the
trace is listing-then-start, and the result mirrors the `OK` prefix of
the start reply (so a successful start yields `True`). -/
theorem C8_present_match (name war v : String) (va : VersionArg)
    (ex : Option String) (mgr : Manager) (w : Webapp) (test : Bool)
    (hv : resolveVersion va ex = v)
    (h : mgr.webapps.lookup name = some w)
    (hends : pyEndsWith w.version v = true) (heq : w.version = v) :
    (w.mode = "running" →
      war_deployed name war false va ex test mgr =
        (some { name := name, result := some true, changes := [],
                comment := name ++ " with " ++ versionPhrase v
                  ++ " is already deployed" },
          [MCall.lsQuery]))
      ∧ (¬ w.mode = "running" →
          (plan name v false mgr.webapps).changes
              = [("start", ChVal.str ("starting " ++ name))]
            ∧ war_deployed name war false va ex false mgr =
                (some { name := name,
                        result := some (pyStartsWith mgr.startReply "OK"),
                        changes := [("start",
                          ChVal.str ("starting " ++ name))],
                        comment := mgr.startReply },
                  [MCall.lsQuery, MCall.startCmd])) := by
  constructor
  · intro hm
    exact war_deployed_running_eq name war v va ex mgr w test hv h hends
      heq hm
  · intro hm
    refine ⟨?_, war_deployed_stopped_eq name war v va ex mgr w hv h hends
      heq hm⟩
    rw [plan_present_match_stopped name v w mgr.webapps h hends heq hm]

/-- Witness for C8 (Scenario A): `/app` at `1.0`, running, desired `1.0`,
force off. -/
theorem C8_present_match_witness :
    war_deployed "/app" "app.war" false (VersionArg.vstr "1.0") none false
        mgrRunning =
      (some { name := "/app", result := some true, changes := [],
              comment := "/app with " ++ versionPhrase "1.0"
                ++ " is already deployed" },
        [MCall.lsQuery]) :=
  (C8_present_match "/app" "app.war" "1.0" (VersionArg.vstr "1.0") none
    mgrRunning { version := "1.0", mode := "running" } false (by decide)
    (by decide) (by decide) (by decide)).1 (by decide)

/-- C10: both branches that set the deploy flag also insert a `deploy`
change entry, so the unconditional `changes.pop('deploy')` on deploy
failure always finds its key: whenever the deploy reply does not start
with `OK`, `war_deployed` never ends in an uncaught exception. -/
theorem C10_deploy_pop_total (name war : String) (force : Bool)
    (va : VersionArg) (ex : Option String) (test : Bool) (mgr : Manager)
    (hfail : pyStartsWith mgr.deployReply "OK" = false) :
    ((plan name (resolveVersion va ex) force mgr.webapps).deploy = true →
        ((plan name (resolveVersion va ex) force
          mgr.webapps).changes.lookup "deploy").isSome = true)
      ∧ ((war_deployed name war force va ex test mgr).1).isSome = true := by
  constructor
  · intro hd
    cases hl : mgr.webapps.lookup name with
    | none =>
        rw [plan_absent name (resolveVersion va ex) force mgr.webapps hl]
        simp [List.lookup]
    | some w =>
        by_cases hc : (!(pyEndsWith w.version (resolveVersion va ex))
            || w.version != resolveVersion va ex || force) = true
        · rw [plan_present_mismatch name (resolveVersion va ex) force w
            mgr.webapps hl hc]
          simp [List.lookup]
        · obtain ⟨ha, he, hforce⟩ := redeploy_cond_false _ _ _ _ hc
          subst hforce
          by_cases hm : w.mode = "running"
          · rw [plan_present_match_running name (resolveVersion va ex) w
              mgr.webapps hl ha he hm] at hd
            exact absurd hd (by simp)
          · rw [plan_present_match_stopped name (resolveVersion va ex) w
              mgr.webapps hl ha he hm] at hd
            exact absurd hd (by simp)
  · cases test with
    | true =>
        rw [war_deployed_test_eq]
        rfl
    | false =>
        cases hl : mgr.webapps.lookup name with
        | none =>
            rw [war_deployed_absent_eq name war (resolveVersion va ex)
              force va ex mgr rfl hl, if_neg (by simp [hfail])]
            rfl
        | some w =>
            by_cases hc : (!(pyEndsWith w.version (resolveVersion va ex))
                || w.version != resolveVersion va ex || force) = true
            · rw [war_deployed_mismatch_eq name war (resolveVersion va ex)
                force va ex mgr w rfl hl hc]
              by_cases hf : pyStartsWith mgr.undeployReply "FAIL" = true
              · rw [if_pos hf]
                rfl
              · rw [if_neg hf, if_neg (by simp [hfail])]
                rfl
            · obtain ⟨ha, he, hforce⟩ := redeploy_cond_false _ _ _ _ hc
              subst hforce
              by_cases hm : w.mode = "running"
              · rw [war_deployed_running_eq name war (resolveVersion va ex)
                  va ex mgr w false rfl hl ha he hm]
                rfl
              · rw [war_deployed_stopped_eq name war (resolveVersion va ex)
                  va ex mgr w rfl hl ha he hm]
                rfl

/-- Witness for C10: forced redeploy of a present path with a failing
deploy reply still returns a report (the pop found its key). -/
theorem C10_deploy_pop_total_witness :
    ((war_deployed "/app" "app.war" true (VersionArg.vstr "2.0") none false
      { mgrRunning with deployReply := "FAIL - disk full" }).1).isSome
        = true :=
  (C10_deploy_pop_total "/app" "app.war" true (VersionArg.vstr "2.0") none
    false { mgrRunning with deployReply := "FAIL - disk full" }
    (by decide)).2
